import Mathlib

/-!
Verification of the Doctor-Connect appointment-booking system.

The Node.js gateway (src/backend/server.js) and the React chat frontend
(src/unnamed/part_000) are embedded directly from their source.  The Python
ML service (conversation state machine, field extractor, datetime resolver
and booking gateway) is referenced by the repository but its source is not
present; those components are modelled from the specification, as marked in
their doc comments.
-/

namespace DoctorConnect

/-- One doctor record of the static list in src/backend/server.js, lines 27-76. -/
structure Doctor where
  id : String
  name : String
  specialization : String
  experience : Nat
  image_url : String
  email : String
deriving DecidableEq, Repr

/-- The static doctor list of src/backend/server.js, lines 27-76, verbatim. -/
def doctors : List Doctor :=
  [ ⟨ "1", "Dr. Elena Martinez", "Internal Medicine", 15,
      "https://images.unsplash.com/photo-1559839734-2b71ea197ec2?w=400&h=400&fit=crop",
      "elena.martinez@healthconnect.com" ⟩,
    ⟨ "2", "Dr. James Wilson", "General Practitioner", 12,
      "https://images.unsplash.com/photo-1612349317150-e413f6a5b16d?w=400&h=400&fit=crop",
      "james.wilson@healthconnect.com" ⟩,
    ⟨ "3", "Dr. Sarah Chen", "Pediatrics", 10,
      "https://images.unsplash.com/photo-1594824476967-48c8b964273f?w=400&h=400&fit=crop",
      "sarah.chen@healthconnect.com" ⟩,
    ⟨ "4", "Dr. Michael Brown", "Cardiology", 18,
      "https://images.unsplash.com/photo-1622253692010-333f2da6031d?w=400&h=400&fit=crop",
      "michael.brown@healthconnect.com" ⟩,
    ⟨ "5", "Dr. Lisa Anderson", "Dermatology", 14,
      "https://images.unsplash.com/photo-1527613426441-4da17471b66d?w=400&h=400&fit=crop",
      "lisa.anderson@healthconnect.com" ⟩,
    ⟨ "6", "Dr. David Kim", "Orthopedics", 16,
      "https://images.unsplash.com/photo-1537368910025-700350fe46c7?w=400&h=400&fit=crop",
      "david.kim@healthconnect.com" ⟩ ]

/-- Body of the GET /api/doctors response (src/backend/server.js, lines 111-116). -/
structure DoctorsResponse where
  success : Bool
  doctors : List Doctor
deriving DecidableEq, Repr

/-- Handler of GET /api/doctors (src/backend/server.js, lines 111-116); the
request is ignored and the static list is returned with success true. -/
def getDoctors (_req : Nat) : DoctorsResponse :=
  ⟨ true, doctors ⟩

/-- Mirror of the JavaScript a || b fallback on strings, where the empty
string and a missing value are falsy. -/
def orFalsy (a : Option String) (b : String) : String :=
  match a with
  | none => b
  | some s => if s = "" then b else s

/-- Removal of leading and trailing whitespace, the behavior of the string
trim operations used by the sources, written over the character list so it
evaluates by kernel reduction. -/
def trimString (s : String) : String :=
  ⟨ ((s.data.dropWhile Char.isWhitespace).reverse.dropWhile Char.isWhitespace).reverse ⟩

/-- Lower-casing of a string, written over the character list. -/
def lowerString (s : String) : String :=
  ⟨ s.data.map Char.toLower ⟩

/-- Splitting on single spaces, the tokenization used by the model, written
over the character list. -/
def splitOnSpaceAux : List Char → List Char → List String
  | [], acc => [⟨ acc.reverse ⟩]
  | c :: rest, acc =>
    if c = ' ' then ⟨ acc.reverse ⟩ :: splitOnSpaceAux rest []
    else splitOnSpaceAux rest (c :: acc)

/-- Tokens of a string, split at each space character. -/
def splitOnSpace (s : String) : List String :=
  splitOnSpaceAux s.data []

/-- Whether pat is a suffix of s, written over the character lists. -/
def endsWithStr (s pat : String) : Bool :=
  pat.data.isSuffixOf s.data

/-- Removal of the last n characters of a string. -/
def dropRightStr (s : String) (n : Nat) : String :=
  ⟨ s.data.take (s.data.length - n) ⟩

/-- Value of one decimal digit character. -/
def charDigit (c : Char) : Option Nat :=
  if c.isDigit then some (c.toNat - 48) else none

/-- Accumulating decimal parse of a character list; none on any non-digit. -/
def digitsToNatAux : List Char → Nat → Option Nat
  | [], acc => some acc
  | c :: rest, acc =>
    match charDigit c with
    | some d => digitsToNatAux rest (acc * 10 + d)
    | none => none

/-- Parse of a non-empty all-digit string into a Nat. -/
def parseNat (s : String) : Option Nat :=
  if s.data = [] then none else digitsToNatAux s.data 0

/-- One chat transcript message, role user or assistant
(src/unnamed/part_000, lines 212-215). -/
structure Message where
  role : String
  content : String
deriving DecidableEq, Repr

/-- Body of a POST /api/chat request (src/backend/server.js, line 125):
message and history are read from the JSON body and each may be absent. -/
structure ChatRequest where
  message : Option String
  history : Option (List Message)
deriving DecidableEq, Repr

/-- Outcome of the axios call from the gateway to the ML service chat
endpoint.  A success carries the reply text and the optional transition
flag (the flag is Option Bool because the ML service contract, whose source
is absent, specifies a boolean terminalFlag that may be omitted); a failure
carries the optional HTTP status and response-body fields of the axios
error together with its always-present message string. -/
inductive MLChatResult where
  | ok (response : String) (shouldTransition : Option Bool)
  | err (status : Option Nat) (dataError : Option String)
        (dataDetails : Option String) (message : String)
deriving DecidableEq, Repr

/-- Body of the gateway response to POST /api/chat
(src/backend/server.js, lines 129-166). -/
structure ChatResponseBody where
  success : Bool
  response : Option String
  shouldTransition : Option Bool
  error : Option String
  details : Option String
deriving DecidableEq, Repr

/-- Result of one gateway request: HTTP status, JSON body, and whether the
downstream ML service was called at all. -/
structure HandlerResult where
  status : Nat
  body : ChatResponseBody
  calledML : Bool
deriving DecidableEq, Repr

/-- Handler of POST /api/chat (src/backend/server.js, lines 123-168).
A missing or empty message is rejected with 400 before any downstream
call; otherwise the ML service is called and its outcome translated:
success becomes a 200 body carrying the reply and shouldTransition
defaulted to false, failure becomes the error.response.status (or 500)
with the fallback chains of lines 158-159. -/
def apiChat (req : ChatRequest) (ml : MLChatResult) : HandlerResult :=
  match req.message with
  | none => ⟨ 400, ⟨ false, none, none, some "Message is required", none ⟩, false ⟩
  | some m =>
    if m = "" then
      ⟨ 400, ⟨ false, none, none, some "Message is required", none ⟩, false ⟩
    else
      match ml with
      | .ok resp st =>
        ⟨ 200, ⟨ true, some resp, some (st.getD false), none, none ⟩, true ⟩
      | .err status dataError dataDetails msg =>
        let errorMessage := orFalsy dataError (orFalsy (some msg) "Failed to process chat message")
        let errorDetails := orFalsy dataDetails msg
        ⟨ status.getD 500, ⟨ false, none, none, some errorMessage, some errorDetails ⟩, true ⟩

/-- Component state of the Chat page (src/unnamed/part_000, lines 219-227):
the transcript, the input box content and the in-flight flag. -/
structure ChatState where
  messages : List Message
  input : String
  isLoading : Bool
deriving DecidableEq, Repr

/-- Outcome of the fetch to the gateway as seen by Chat.handleSend: either an
HTTP response arrived (status plus the parsed gateway body), or the fetch
itself threw with a message. -/
inductive FetchOutcome where
  | ok (status : Nat) (body : ChatResponseBody)
  | netErr (message : String)
deriving DecidableEq, Repr

/-- What one call of Chat.handleSend did: the component state when the
handler returns, whether a network request was made, the toast error text
if any, and whether a navigation to /doctors was scheduled. -/
structure SendResult where
  state : ChatState
  didFetch : Bool
  toastError : Option String
  navigated : Bool
deriving DecidableEq, Repr

/-- Error continuation of Chat.handleSend (src/unnamed/part_000, lines
283-294): toast the message and append an assistant bubble that embeds it. -/
def handleSendErr (msgs : List Message) (em : String) : SendResult :=
  ⟨ ⟨ msgs ++ [⟨ "assistant",
        "Sorry, I encountered an error: " ++ em ++ ". Please make sure all services are running." ⟩],
      "", false ⟩,
    true, some em, false ⟩

/-- Chat.handleSend (src/unnamed/part_000, lines 237-295).  The guard on
line 238 returns immediately when the trimmed input is empty or a request
is in flight; otherwise the user message is appended, the input cleared,
the gateway called, and the response handled: an ok response with success
appends the assistant reply (navigating when shouldTransition is truthy),
anything else flows into the catch handler with the fallback chains of
lines 262-263 and 279. -/
def handleSend (st : ChatState) (outcome : FetchOutcome) : SendResult :=
  if trimString st.input = "" ∨ st.isLoading then
    ⟨ st, false, none, false ⟩
  else
    let msgs1 := st.messages ++ [⟨ "user", st.input ⟩]
    match outcome with
    | .ok status body =>
      if 200 ≤ status ∧ status ≤ 299 then
        if body.success then
          ⟨ ⟨ msgs1 ++ [⟨ "assistant", body.response.getD "" ⟩], "", false ⟩,
            true, none, body.shouldTransition.getD false ⟩
        else
          handleSendErr msgs1 (orFalsy body.error (orFalsy body.details "Failed to get response"))
      else
        handleSendErr msgs1
          (orFalsy body.error (orFalsy body.details ("API error: " ++ toString status)))
    | .netErr m => handleSendErr msgs1 m

/-- The string s occurs verbatim, as a contiguous substring, in t. -/
def OccursVerbatim (s t : String) : Prop :=
  ∃ a b, t = a ++ s ++ b

/-- Configuration of one outbound axios call of the gateway: the downstream
path and the explicit timeout, when one is set in the request config. -/
structure AxiosCall where
  path : String
  timeoutMs : Option Nat
deriving DecidableEq, Repr

/-- Axios call of POST /api/chat (src/backend/server.js, lines 138-144):
explicit 30000 ms timeout. -/
def chatMLCall : AxiosCall := ⟨ "/chat", some 30000 ⟩

/-- Axios call of POST /api/book (src/backend/server.js, lines 199-204):
no timeout in the request config. -/
def bookMLCall : AxiosCall := ⟨ "/book_appointment", none ⟩

/-- Axios call of POST /api/init_auth (src/backend/server.js, line 89):
no timeout in the request config. -/
def initAuthMLCall : AxiosCall := ⟨ "/set_credentials", none ⟩

/-- Axios call of GET /api/check_auth (src/backend/server.js, line 177):
no timeout in the request config. -/
def checkAuthMLCall : AxiosCall := ⟨ "/check_auth", none ⟩

/-- Every outbound external call issued by the gateway in
src/backend/server.js. -/
def gatewayExternalCalls : List AxiosCall :=
  [ initAuthMLCall, chatMLCall, checkAuthMLCall, bookMLCall ]

/-- Modelled from the spec: the states of section 4.5 of the conversation
state machine, whose Python source (ml_service.py appointment agent) is
absent from the repository snapshot. -/
inductive SessionState where
  | awaitingName
  | awaitingSymptoms
  | awaitingDatetime
  | awaitingConfirmation
  | booked
  | cancelled
  | failed
deriving DecidableEq, Repr

/-- Modelled from the spec: a terminal state is one of Booked, Cancelled,
Failed. -/
def SessionState.isTerminal : SessionState → Bool
  | .booked => true
  | .cancelled => true
  | .failed => true
  | _ => false

/-- Modelled from the spec: the ConversationSession record of section 3
(the creation and last-update clocks are not modelled; no claim concerns
them). -/
structure Session where
  sessionId : String
  state : SessionState
  patientName : Option String
  symptomText : Option String
  doctorId : Option String
  requestedTime : Option Nat
  confirmed : Bool
  bookingRef : Option String
  turnCount : Nat
deriving DecidableEq, Repr

/-- Modelled from the spec: a fresh session created on the first utterance. -/
def freshSession (sid : String) : Session :=
  ⟨ sid, .awaitingName, none, none, none, none, false, none, 0 ⟩

/-- Minutes in one day; timestamps are minutes since an epoch in the single
fixed timezone of spec section 4.3. -/
def minutesPerDay : Nat := 1440

/-- Modelled from the spec: recognition of a bare clock time such as 2pm,
11am or 14, returning minutes after midnight. -/
def parseClock (s : String) : Option Nat :=
  if endsWithStr s "pm" then
    match parseNat (dropRightStr s 2) with
    | some h => if 1 ≤ h ∧ h ≤ 12 then some ((h % 12 + 12) * 60) else none
    | none => none
  else if endsWithStr s "am" then
    match parseNat (dropRightStr s 2) with
    | some h => if 1 ≤ h ∧ h ≤ 12 then some ((h % 12) * 60) else none
    | none => none
  else
    match parseNat s with
    | some h => if h ≤ 23 then some (h * 60) else none
    | none => none

/-- Modelled from the spec: the recognition front end of the datetime
resolver of section 4.3 (absent ml_service.py).  It supports relative-day
phrases combined with a clock time and bare clock times resolved to the
nearest future occurrence; it yields the candidate timestamp before the
past-date policy check. -/
def recognizeTime (text : String) (referenceNow : Nat) : Option Nat :=
  let dayStart := referenceNow / minutesPerDay * minutesPerDay
  match splitOnSpace (trimString (lowerString text)) with
  | ["today", "at", c] => (parseClock c).map (fun m => dayStart + m)
  | ["tomorrow", "at", c] => (parseClock c).map (fun m => dayStart + minutesPerDay + m)
  | ["at", c] =>
    (parseClock c).map (fun m =>
      if dayStart + m < referenceNow then dayStart + minutesPerDay + m else dayStart + m)
  | _ => none

/-- Modelled from the spec: the two rejection reasons of the datetime
resolver. -/
inductive ParseErrorKind where
  | pastDate
  | unparseable
deriving DecidableEq, Repr

/-- Result of the datetime resolver: a timestamp or a parse error. -/
inductive ResolveResult where
  | ok (t : Nat)
  | err (e : ParseErrorKind)
deriving DecidableEq, Repr

/-- Modelled from the spec: resolve of section 4.3 (absent ml_service.py).
An unrecognized phrase is Unparseable; a recognized timestamp strictly
before referenceNow is rejected as PastDate. -/
def resolve (text : String) (referenceNow : Nat) : ResolveResult :=
  match recognizeTime text referenceNow with
  | none => .err .unparseable
  | some t => if t < referenceNow then .err .pastDate else .ok t

/-- Modelled from the spec: the ordered keyword rule table of the Doctor
Matcher of section 4.2 (absent ml_service.py), keyed to the ids of the
static doctor directory. -/
def doctorRules : List (List String × String) :=
  [ (["heart", "chest", "palpitations"], "4"),
    (["skin", "rash", "acne"], "5"),
    (["bone", "joint", "fracture", "knee"], "6"),
    (["child", "baby", "infant"], "3"),
    (["headache", "fever", "cough", "cold", "stomach"], "1") ]

/-- Modelled from the spec: the fixed default doctor returned when no rule
matches. -/
def defaultDoctorId : String := "2"

/-- Modelled from the spec: first-match-wins keyword matching of the Doctor
Matcher of section 4.2; total, with the default doctor as fallback. -/
def matchDoctor (symptomText : String) : String :=
  let tokens := splitOnSpace (lowerString symptomText)
  match doctorRules.find? (fun r => r.1.any (fun k => tokens.contains k)) with
  | some r => r.2
  | none => defaultDoctorId

/-- Modelled from the spec: classification of a confirmation utterance into
affirm, deny or unclear. -/
inductive ConfirmIntent where
  | affirm
  | deny
  | unclear
deriving DecidableEq, Repr

/-- Modelled from the spec: the fixed affirmative keyword set of the Field
Extractor of section 4.1. -/
def affirmWords : List String :=
  ["yes", "yeah", "yep", "sure", "ok", "okay", "confirm"]

/-- Modelled from the spec: the fixed negative keyword set of the Field
Extractor of section 4.1. -/
def denyWords : List String :=
  ["no", "nope", "wrong"]

/-- Modelled from the spec: the confirmation classifier of the Field
Extractor; an utterance matching neither keyword set is unclear and
re-prompts. -/
def classifyConfirmation (u : String) : ConfirmIntent :=
  let t := trimString (lowerString u)
  if affirmWords.contains t then .affirm
  else if denyWords.contains t then .deny
  else .unclear

/-- Modelled from the spec: the explicit cancel intent that moves any
non-terminal state to Cancelled. -/
def isCancel (u : String) : Bool :=
  trimString (lowerString u) = "cancel"

/-- Modelled from the spec: one event of the external calendar
collaborator, carrying the idempotency key under which it was created. -/
structure CalEvent where
  doctorId : String
  startTime : Nat
  endTime : Nat
  patient : String
  idemKey : String
deriving DecidableEq, Repr

/-- The external calendar state: its list of events. -/
abbrev Calendar := List CalEvent

/-- Modelled from the spec: the fixed appointment duration of an
AvailabilityWindow, in minutes. -/
def appointmentLength : Nat := 30

/-- An event overlaps the window (s, e) for doctor d. -/
def overlaps (ev : CalEvent) (d : String) (s e : Nat) : Bool :=
  ev.doctorId == d && decide (ev.startTime < e) && decide (s < ev.endTime)

/-- Modelled from the spec: queryConflicts of the calendar collaborator,
returning the events overlapping the window. -/
def queryConflicts (cal : Calendar) (d : String) (s e : Nat) : List CalEvent :=
  cal.filter (fun ev => overlaps ev d s e)

/-- Modelled from the spec: createEvent of the calendar collaborator; the
idempotency key makes a repeated create a no-op returning the same
booking reference. -/
def createEvent (cal : Calendar) (d : String) (s e : Nat) (patient idemKey : String) :
    Calendar × String :=
  match cal.find? (fun ev => ev.idemKey == idemKey) with
  | some _ => (cal, "ref-" ++ idemKey)
  | none => (cal ++ [⟨ d, s, e, patient, idemKey ⟩], "ref-" ++ idemKey)

/-- Modelled from the spec: outcome of one gateway booking attempt. -/
inductive BookOutcome where
  | booked (ref : String)
  | conflict
  | transientFailure
deriving DecidableEq, Repr

/-- Modelled from the spec: tryBook of the Availability and Booking Gateway
of section 4.4 (absent ml_service.py).  A post-create existence re-check by
session key comes first, so a retry after a timed-out create finds the
already-written event; otherwise conflicts are queried and, if clear, the
create is issued with the session id as idempotency key.  The timedOut flag
injects the loss of the create response after the write, the case the
at-most-once guarantee must survive. -/
def tryBook (cal : Calendar) (d : String) (start : Nat) (patient sessionId : String)
    (timedOut : Bool) : Calendar × BookOutcome :=
  match cal.find? (fun ev => ev.idemKey == sessionId) with
  | some _ => (cal, .booked ("ref-" ++ sessionId))
  | none =>
    if queryConflicts cal d start (start + appointmentLength) ≠ [] then
      (cal, .conflict)
    else
      let r := createEvent cal d start (start + appointmentLength) patient sessionId
      if timedOut then (r.1, .transientFailure) else (r.1, .booked r.2)

/-- Result of one conversational turn: the updated session, the updated
calendar, the reply text and the terminal flag of the section 6 interface. -/
structure StepResult where
  session : Session
  calendar : Calendar
  reply : String
  terminalFlag : Bool
deriving DecidableEq, Repr

/-- Modelled from the spec: one turn of the Conversation State Machine of
section 4.5 (absent ml_service.py).  Terminal states absorb; an explicit
cancel moves any live state to Cancelled; otherwise only the field the
current state awaits is extracted (name, then symptoms with doctor match,
then datetime through the resolver, then confirmation driving the booking
gateway).  Conflict reverts to AwaitingDatetime, TransientFailure stays in
AwaitingConfirmation offering a retry. -/
def step (s : Session) (cal : Calendar) (utterance : String) (referenceNow : Nat)
    (timedOut : Bool) : StepResult :=
  if s.state.isTerminal then
    ⟨ s, cal, "This conversation has ended.", true ⟩
  else if isCancel utterance then
    ⟨ { s with state := .cancelled, turnCount := s.turnCount + 1 }, cal,
      "Your booking request has been cancelled.", true ⟩
  else
    match s.state with
    | .awaitingName =>
      if trimString utterance = "" then
        ⟨ { s with turnCount := s.turnCount + 1 }, cal,
          "May I have your full name please?", false ⟩
      else
        ⟨ { s with
              patientName := some (trimString utterance)
              state := .awaitingSymptoms
              turnCount := s.turnCount + 1 }, cal,
          "Please describe your symptoms.", false ⟩
    | .awaitingSymptoms =>
      if trimString utterance = "" then
        ⟨ { s with turnCount := s.turnCount + 1 }, cal,
          "Please describe your symptoms.", false ⟩
      else
        ⟨ { s with
              symptomText := some utterance
              doctorId := some (matchDoctor utterance)
              state := .awaitingDatetime
              turnCount := s.turnCount + 1 }, cal,
          "When would you like the appointment?", false ⟩
    | .awaitingDatetime =>
      match resolve utterance referenceNow with
      | .ok t =>
        ⟨ { s with
              requestedTime := some t
              state := .awaitingConfirmation
              turnCount := s.turnCount + 1 }, cal,
          "Please confirm your appointment.", false ⟩
      | .err .pastDate =>
        ⟨ { s with turnCount := s.turnCount + 1 }, cal,
          "That time is in the past. Please choose a future time.", false ⟩
      | .err .unparseable =>
        ⟨ { s with turnCount := s.turnCount + 1 }, cal,
          "Sorry, I could not understand that time. Please restate it.", false ⟩
    | .awaitingConfirmation =>
      match classifyConfirmation utterance with
      | .affirm =>
        let r := tryBook cal (s.doctorId.getD defaultDoctorId) (s.requestedTime.getD 0)
          (s.patientName.getD "") s.sessionId timedOut
        match r.2 with
        | .booked ref =>
          ⟨ { s with
                state := .booked
                confirmed := true
                bookingRef := some ref
                turnCount := s.turnCount + 1 }, r.1,
            "Your appointment is booked.", true ⟩
        | .conflict =>
          ⟨ { s with
                state := .awaitingDatetime
                requestedTime := none
                turnCount := s.turnCount + 1 }, r.1,
            "That slot is taken. Please choose another time.", false ⟩
        | .transientFailure =>
          ⟨ { s with turnCount := s.turnCount + 1 }, r.1,
            "The booking service is unavailable right now. Please try again shortly.", false ⟩
      | .deny =>
        ⟨ { s with
              state := .awaitingDatetime
              requestedTime := none
              turnCount := s.turnCount + 1 }, cal,
          "Okay, what time would you prefer instead?", false ⟩
      | .unclear =>
        ⟨ { s with turnCount := s.turnCount + 1 }, cal,
          "Please reply yes or no.", false ⟩
    | .booked => ⟨ s, cal, "This conversation has ended.", true ⟩
    | .cancelled => ⟨ s, cal, "This conversation has ended.", true ⟩
    | .failed => ⟨ s, cal, "This conversation has ended.", true ⟩

/-- One turn input: the utterance, the reference clock for the datetime
resolver, and whether the create call of that turn times out after the
write. -/
structure TurnInput where
  utterance : String
  referenceNow : Nat
  timedOut : Bool
deriving DecidableEq, Repr

/-- Modelled from the spec: a whole conversation, folding step over a
sequence of turns against the session and the external calendar. -/
def run (s : Session) (cal : Calendar) : List TurnInput → Session × Calendar
  | [] => (s, cal)
  | i :: rest =>
    let r := step s cal i.utterance i.referenceNow i.timedOut
    run r.session r.calendar rest

/-- Number of calendar events created under a given idempotency key: the
successful bookings stored for that session. -/
def countKey (cal : Calendar) (key : String) : Nat :=
  (cal.filter (fun ev => ev.idemKey == key)).length

/-- C5: every request to GET /api/doctors reports success and returns the
fixed static doctor list, in which every entry has a non-empty id, name and
specialization; the response is identical across all requests. -/
theorem getDoctors_static :
    (∀ req : Nat, (getDoctors req).success = true ∧ (getDoctors req).doctors = doctors) ∧
    (∀ r1 r2 : Nat, getDoctors r1 = getDoctors r2) ∧
    doctors.all
      (fun d => !(d.id == "") && !(d.name == "") && !(d.specialization == "")) = true := by
  refine ⟨ fun req => ⟨ rfl, rfl ⟩, fun r1 r2 => rfl, by decide ⟩

/-- C9: a chat request whose message is absent, null or empty is answered
with HTTP 400 and success false, and no downstream ML-service call is
issued (src/backend/server.js, lines 129-134). -/
theorem apiChat_missing_message_400 (req : ChatRequest) (ml : MLChatResult)
    (h : req.message = none ∨ req.message = some "") :
    apiChat req ml =
      ⟨ 400, ⟨ false, none, none, some "Message is required", none ⟩, false ⟩ := by
  rcases h with h | h <;> simp [apiChat, h]

/-- Witness for C9 at the concrete empty-bodied request. -/
theorem apiChat_missing_message_400_witness :
    apiChat ⟨ none, none ⟩ (.ok "hi" none) =
      ⟨ 400, ⟨ false, none, none, some "Message is required", none ⟩, false ⟩ :=
  apiChat_missing_message_400 ⟨ none, none ⟩ (.ok "hi" none) (Or.inl rfl)

/-- C3: a successful conversational turn produces a 200 response carrying
the reply text and a boolean shouldTransition flag, defaulted to false
when the downstream service omits it (src/backend/server.js, lines
146-152). -/
theorem apiChat_success_shape (m : String) (hist : Option (List Message))
    (resp : String) (st : Option Bool) (h : m ≠ "") :
    apiChat ⟨ some m, hist ⟩ (.ok resp st) =
      ⟨ 200, ⟨ true, some resp, some (st.getD false), none, none ⟩, true ⟩ ∧
    (st = none →
      (apiChat ⟨ some m, hist ⟩ (.ok resp st)).body.shouldTransition = some false) := by
  constructor
  · simp [apiChat, h]
  · intro hst
    simp [apiChat, h, hst]

/-- Witness for C3 at a concrete turn whose downstream reply omits the
flag. -/
theorem apiChat_success_shape_witness :
    apiChat ⟨ some "Hello", none ⟩ (.ok "Hi there" none) =
      ⟨ 200, ⟨ true, some "Hi there", some ((none : Option Bool).getD false), none, none ⟩,
        true ⟩ ∧
    ((none : Option Bool) = none →
      (apiChat ⟨ some "Hello", none ⟩ (.ok "Hi there" none)).body.shouldTransition =
        some false) :=
  apiChat_success_shape "Hello" none "Hi there" none (by decide)

/-- C10: when the trimmed chat input is empty or a request is in flight,
Chat.handleSend does nothing: no transcript append, no network request, no
toast, no navigation, state unchanged (src/unnamed/part_000, line 238). -/
theorem handleSend_guard_noop (st : ChatState) (outcome : FetchOutcome)
    (h : trimString st.input = "" ∨ st.isLoading = true) :
    handleSend st outcome = ⟨ st, false, none, false ⟩ := by
  rcases h with h | h <;> simp [handleSend, h]

/-- Witness for C10 at a whitespace-only input. -/
theorem handleSend_guard_noop_witness :
    handleSend ⟨ [], "   ", false ⟩ (.netErr "boom") =
      ⟨ ⟨ [], "   ", false ⟩, false, none, false ⟩ :=
  handleSend_guard_noop ⟨ [], "   ", false ⟩ (.netErr "boom") (Or.inl (by decide))

/-- C4 counterexample: the axios call behind POST /api/book is an external
call of the gateway whose request config carries no timeout
(src/backend/server.js, lines 199-204), so not every external call carries
an explicit timeout. -/
theorem book_call_lacks_timeout :
    bookMLCall ∈ gatewayExternalCalls ∧ bookMLCall.timeoutMs = none := by
  constructor
  · simp [gatewayExternalCalls]
  · rfl

/-- C4 amended: only the chat downstream call carries an explicit timeout
(30000 ms); the init-auth, check-auth and book calls carry none; and a
timed-out chat call is surfaced as an error response by the gateway rather
than a hang. -/
theorem timeout_only_on_chat_call :
    chatMLCall.timeoutMs = some 30000 ∧
    initAuthMLCall.timeoutMs = none ∧
    checkAuthMLCall.timeoutMs = none ∧
    bookMLCall.timeoutMs = none ∧
    apiChat ⟨ some "Hello", none ⟩
        (.err none none none "timeout of 30000ms exceeded") =
      ⟨ 500, ⟨ false, none, none, some "timeout of 30000ms exceeded",
          some "timeout of 30000ms exceeded" ⟩, true ⟩ := by
  refine ⟨ rfl, rfl, rfl, rfl, by decide ⟩

/-- End-to-end conversational turn as wired in the repository: the frontend
sends its input as message and its transcript as history to POST /api/chat
(src/unnamed/part_000, lines 250-257), and handleSend consumes the gateway
HTTP response. -/
def chatTurn (st : ChatState) (ml : MLChatResult) : SendResult :=
  let g := apiChat ⟨ some st.input, some st.messages ⟩ ml
  handleSend st (.ok g.status g.body)

/-- A JavaScript falsy-or chain keeps a non-empty fallback non-empty. -/
theorem orFalsy_ne (a : Option String) (b : String) (hb : b ≠ "") :
    orFalsy a b ≠ "" := by
  cases a with
  | none => exact hb
  | some s =>
    by_cases hs : s = "" <;> simp [orFalsy, hs, hb]

/-- A non-empty first operand wins a JavaScript falsy-or chain. -/
theorem orFalsy_some (s b : String) (hs : s ≠ "") : orFalsy (some s) b = s := by
  simp [orFalsy, hs]

/-- C2 counterexample: when the ML-service call fails with the raw axios
message connect ECONNREFUSED 127.0.0.1:5001, the gateway forwards that
message in its error field (src/backend/server.js, line 158) and the
frontend appends it verbatim to the visible transcript
(src/unnamed/part_000, lines 290-293), so a raw external-dependency error
message does reach the end user verbatim. -/
theorem chat_error_reaches_user_verbatim :
    (chatTurn ⟨ [], "Hello", false ⟩
        (.err none none none "connect ECONNREFUSED 127.0.0.1:5001")).state.messages =
      [ ⟨ "user", "Hello" ⟩,
        ⟨ "assistant",
          "Sorry, I encountered an error: connect ECONNREFUSED 127.0.0.1:5001. Please make sure all services are running." ⟩ ] ∧
    OccursVerbatim "connect ECONNREFUSED 127.0.0.1:5001"
      "Sorry, I encountered an error: connect ECONNREFUSED 127.0.0.1:5001. Please make sure all services are running." := by
  exact ⟨ by decide,
    ⟨ "Sorry, I encountered an error: ",
      ". Please make sure all services are running.", by decide ⟩ ⟩

/-- C2 amended: on a failed downstream call the user-visible reply is the
fixed natural-language wrapper of Chat.handleSend, but the raw downstream
error message (or the error field forwarded by the gateway) is embedded in
it verbatim rather than suppressed. -/
theorem chat_downstream_error_wrapped (st : ChatState) (status : Option Nat)
    (dataError dataDetails : Option String) (msg : String)
    (h1 : trimString st.input ≠ "") (h2 : st.isLoading = false) (h3 : msg ≠ "") :
    (chatTurn st (.err status dataError dataDetails msg)).state.messages =
      st.messages ++
        [ ⟨ "user", st.input ⟩,
          ⟨ "assistant",
            "Sorry, I encountered an error: " ++ orFalsy dataError msg ++
              ". Please make sure all services are running." ⟩ ] ∧
    OccursVerbatim (orFalsy dataError msg)
      ("Sorry, I encountered an error: " ++ orFalsy dataError msg ++
        ". Please make sure all services are running.") := by
  have hinput : st.input ≠ "" := by
    intro he
    exact h1 (by rw [he]; rfl)
  have hem : orFalsy dataError msg ≠ "" := orFalsy_ne dataError msg h3
  constructor
  · simp only [chatTurn, apiChat, orFalsy_some msg _ h3]
    rw [if_neg hinput]
    simp only [handleSend, h2]
    rw [if_neg (by simp [h1])]
    split
    · simp [handleSendErr, orFalsy_some _ _ hem]
    · simp [handleSendErr, orFalsy_some _ _ hem]
  · exact ⟨ "Sorry, I encountered an error: ",
      ". Please make sure all services are running.", rfl ⟩

/-- Witness for C2 amended at a concrete failing turn. -/
theorem chat_downstream_error_wrapped_witness :
    (chatTurn ⟨ [], "Hello", false ⟩ (.err none none none "service down")).state.messages =
      ([] : List Message) ++
        [ ⟨ "user", "Hello" ⟩,
          ⟨ "assistant",
            "Sorry, I encountered an error: " ++ orFalsy none "service down" ++
              ". Please make sure all services are running." ⟩ ] ∧
    OccursVerbatim (orFalsy none "service down")
      ("Sorry, I encountered an error: " ++ orFalsy none "service down" ++
        ". Please make sure all services are running.") :=
  chat_downstream_error_wrapped ⟨ [], "Hello", false ⟩ none none none "service down"
    (by decide) rfl (by decide)

/-- A step taken in a terminal state changes neither the session nor the
calendar. -/
theorem step_terminal (s : Session) (cal : Calendar) (u : String) (n : Nat) (t : Bool)
    (h : s.state.isTerminal = true) :
    step s cal u n t = ⟨ s, cal, "This conversation has ended.", true ⟩ := by
  simp [step, h]

/-- A whole conversation run from a terminal state changes nothing. -/
theorem run_of_terminal (s : Session) (cal : Calendar) (inputs : List TurnInput)
    (h : s.state.isTerminal = true) :
    run s cal inputs = (s, cal) := by
  induction inputs with
  | nil => rfl
  | cons i rest ih =>
    simp [run, step_terminal s cal i.utterance i.referenceNow i.timedOut h, ih]

/-- Idempotent create keeps the per-key event count at one. -/
theorem countKey_createEvent (cal : Calendar) (d : String) (a b : Nat) (p key : String)
    (h : countKey cal key ≤ 1) :
    countKey (createEvent cal d a b p key).1 key ≤ 1 := by
  unfold createEvent
  cases hf : cal.find? (fun ev => ev.idemKey == key) with
  | some ev => simpa using h
  | none =>
    have hall : ∀ ev ∈ cal, ¬ (ev.idemKey == key) = true := by
      intro ev hev
      exact List.find?_eq_none.mp hf ev hev
    have h0 : countKey cal key = 0 := by
      unfold countKey
      rw [List.filter_eq_nil_iff.mpr hall]
      rfl
    unfold countKey at h0 ⊢
    rw [List.filter_append, List.length_append, h0]
    simp

/-- The gateway booking attempt keeps the per-session event count at one. -/
theorem countKey_tryBook (cal : Calendar) (d : String) (start : Nat) (p sid : String)
    (tmo : Bool) (h : countKey cal sid ≤ 1) :
    countKey (tryBook cal d start p sid tmo).1 sid ≤ 1 := by
  unfold tryBook
  cases hf : cal.find? (fun ev => ev.idemKey == sid) with
  | some ev => simpa using h
  | none =>
    simp only
    split
    · simpa using h
    · split <;> exact countKey_createEvent cal d start (start + appointmentLength) p sid h

/-- One turn keeps the per-session event count at one and preserves the
session identifier. -/
theorem countKey_step (s : Session) (cal : Calendar) (u : String) (n : Nat) (t : Bool)
    (h : countKey cal s.sessionId ≤ 1) :
    countKey (step s cal u n t).calendar s.sessionId ≤ 1 ∧
    (step s cal u n t).session.sessionId = s.sessionId := by
  simp only [step]
  repeat' split
  all_goals refine ⟨ ?_, rfl ⟩
  all_goals first
    | exact h
    | exact countKey_tryBook cal (s.doctorId.getD defaultDoctorId) (s.requestedTime.getD 0)
        (s.patientName.getD "") s.sessionId t h

/-- C1: over any sequence of turns, a session never accumulates more than
one stored booking: the calendar never holds two events created under that
session identifier, and once the session is Booked every later turn,
including a re-delivered confirmation, changes nothing. -/
theorem run_at_most_one_booking (inputs : List TurnInput) (s : Session) (cal : Calendar)
    (h : countKey cal s.sessionId ≤ 1) :
    countKey (run s cal inputs).2 s.sessionId ≤ 1 ∧
    (run s cal inputs).1.sessionId = s.sessionId ∧
    (s.state = .booked → run s cal inputs = (s, cal)) := by
  induction inputs generalizing s cal with
  | nil => exact ⟨ h, rfl, fun _ => rfl ⟩
  | cons i rest ih =>
    obtain ⟨ hc, hid ⟩ := countKey_step s cal i.utterance i.referenceNow i.timedOut h
    have hrest := ih (step s cal i.utterance i.referenceNow i.timedOut).session
      (step s cal i.utterance i.referenceNow i.timedOut).calendar (by rw [hid]; exact hc)
    refine ⟨ ?_, ?_, ?_ ⟩
    · have := hrest.1
      rw [hid] at this
      simpa [run] using this
    · have := hrest.2.1
      rw [hid] at this
      simpa [run] using this
    · intro hb
      have ht : s.state.isTerminal = true := by rw [hb]; rfl
      exact run_of_terminal s cal (i :: rest) ht

/-- Witness for C1 on a concrete conversation that books, times out on the
first confirmation and re-delivers the confirmation after success. -/
theorem run_at_most_one_booking_witness :
    countKey (run (freshSession "s1") []
      [ ⟨ "Sarah Johnson", 0, false ⟩, ⟨ "headache", 5, false ⟩,
        ⟨ "tomorrow at 2pm", 10, false ⟩, ⟨ "yes", 15, true ⟩,
        ⟨ "yes", 20, false ⟩, ⟨ "yes", 25, false ⟩ ]).2 (freshSession "s1").sessionId ≤ 1 ∧
    (run (freshSession "s1") []
      [ ⟨ "Sarah Johnson", 0, false ⟩, ⟨ "headache", 5, false ⟩,
        ⟨ "tomorrow at 2pm", 10, false ⟩, ⟨ "yes", 15, true ⟩,
        ⟨ "yes", 20, false ⟩, ⟨ "yes", 25, false ⟩ ]).1.sessionId =
      (freshSession "s1").sessionId ∧
    ((freshSession "s1").state = .booked →
      run (freshSession "s1") []
        [ ⟨ "Sarah Johnson", 0, false ⟩, ⟨ "headache", 5, false ⟩,
          ⟨ "tomorrow at 2pm", 10, false ⟩, ⟨ "yes", 15, true ⟩,
          ⟨ "yes", 20, false ⟩, ⟨ "yes", 25, false ⟩ ] = (freshSession "s1", [])) :=
  run_at_most_one_booking
    [ ⟨ "Sarah Johnson", 0, false ⟩, ⟨ "headache", 5, false ⟩,
      ⟨ "tomorrow at 2pm", 10, false ⟩, ⟨ "yes", 15, true ⟩,
      ⟨ "yes", 20, false ⟩, ⟨ "yes", 25, false ⟩ ]
    (freshSession "s1") [] (by decide)

/-- C6: from a terminal state (Booked, Cancelled or Failed), no sequence of
further utterances changes the session or the calendar. -/
theorem terminal_state_never_changes (s : Session) (cal : Calendar)
    (inputs : List TurnInput) (h : s.state.isTerminal = true) :
    (run s cal inputs).1 = s ∧ (run s cal inputs).2 = cal := by
  rw [run_of_terminal s cal inputs h]
  exact ⟨ rfl, rfl ⟩

/-- Witness for C6 on a concrete Booked session fed two more utterances. -/
theorem terminal_state_never_changes_witness :
    (run ⟨ "s1", .booked, some "Sarah Johnson", some "headache", some "1",
        some 2280, true, some "ref-s1", 4 ⟩ []
      [ ⟨ "yes", 100, false ⟩, ⟨ "tomorrow at 2pm", 200, false ⟩ ]).1 =
      ⟨ "s1", .booked, some "Sarah Johnson", some "headache", some "1",
        some 2280, true, some "ref-s1", 4 ⟩ ∧
    (run ⟨ "s1", .booked, some "Sarah Johnson", some "headache", some "1",
        some 2280, true, some "ref-s1", 4 ⟩ []
      [ ⟨ "yes", 100, false ⟩, ⟨ "tomorrow at 2pm", 200, false ⟩ ]).2 = [] :=
  terminal_state_never_changes
    ⟨ "s1", .booked, some "Sarah Johnson", some "headache", some "1",
      some 2280, true, some "ref-s1", 4 ⟩ []
    [ ⟨ "yes", 100, false ⟩, ⟨ "tomorrow at 2pm", 200, false ⟩ ] rfl

/-- C7: no transition skips a state forward out of order: while the session
awaits the name, a turn never populates the symptom, doctor or time fields
and only moves to AwaitingSymptoms or Cancelled; and the only way a turn
leaves AwaitingDatetime for AwaitingConfirmation is a fresh successful
resolution of the utterance it was given, so a date mentioned earlier must
be re-supplied. -/
theorem no_forward_skip :
    (∀ (s : Session) (cal : Calendar) (u : String) (n : Nat) (t : Bool),
      s.state = .awaitingName →
        (step s cal u n t).session.requestedTime = s.requestedTime ∧
        (step s cal u n t).session.symptomText = s.symptomText ∧
        (step s cal u n t).session.doctorId = s.doctorId ∧
        ((step s cal u n t).session.state = .awaitingName ∨
         (step s cal u n t).session.state = .awaitingSymptoms ∨
         (step s cal u n t).session.state = .cancelled)) ∧
    (∀ (s : Session) (cal : Calendar) (u : String) (n : Nat) (t : Bool),
      s.state = .awaitingDatetime →
        (step s cal u n t).session.state = .awaitingConfirmation →
        ∃ tt, resolve u n = .ok tt ∧
          (step s cal u n t).session.requestedTime = some tt) := by
  constructor
  · intro s cal u n t hs
    by_cases hc : isCancel u = true <;> by_cases ht : trimString u = "" <;>
      simp [step, hs, hc, ht, SessionState.isTerminal]
  · intro s cal u n t hs
    by_cases hc : isCancel u = true
    · intro habs
      simp [step, hs, hc, SessionState.isTerminal] at habs
    · cases hr : resolve u n with
      | ok tt =>
        intro _
        exact ⟨ tt, rfl, by simp [step, hs, hc, hr, SessionState.isTerminal] ⟩
      | err e =>
        intro habs
        cases e <;> simp [step, hs, hc, hr, SessionState.isTerminal] at habs

/-- Witness for C7: a date-bearing utterance in AwaitingName populates no
later-stage field. -/
theorem no_forward_skip_witness :
    (step (freshSession "s1") [] "tomorrow at 2pm" 0 false).session.requestedTime =
      (freshSession "s1").requestedTime ∧
    (step (freshSession "s1") [] "tomorrow at 2pm" 0 false).session.symptomText =
      (freshSession "s1").symptomText ∧
    (step (freshSession "s1") [] "tomorrow at 2pm" 0 false).session.doctorId =
      (freshSession "s1").doctorId ∧
    ((step (freshSession "s1") [] "tomorrow at 2pm" 0 false).session.state =
        .awaitingName ∨
     (step (freshSession "s1") [] "tomorrow at 2pm" 0 false).session.state =
        .awaitingSymptoms ∨
     (step (freshSession "s1") [] "tomorrow at 2pm" 0 false).session.state =
        .cancelled) :=
  no_forward_skip.1 (freshSession "s1") [] "tomorrow at 2pm" 0 false rfl

/-- C8: a datetime phrase recognized as a timestamp strictly before
referenceNow is rejected as ParseError PastDate, and the session state and
requested time are unchanged, remaining at AwaitingDatetime. -/
theorem past_datetime_rejected (text : String) (now tt : Nat) (s : Session)
    (cal : Calendar) (tmo : Bool) (h1 : recognizeTime text now = some tt)
    (h2 : tt < now) (hs : s.state = .awaitingDatetime) :
    resolve text now = .err .pastDate ∧
    (step s cal text now tmo).session.state = .awaitingDatetime ∧
    (step s cal text now tmo).session.requestedTime = s.requestedTime := by
  have hres : resolve text now = .err .pastDate := by
    simp [resolve, h1, h2]
  have hcancel : isCancel text = false := by
    by_contra hc
    have hcl : trimString (lowerString text) = "cancel" := by
      simpa [isCancel] using hc
    have hnone : recognizeTime text now = none := by
      unfold recognizeTime
      rw [hcl]
      rfl
    rw [hnone] at h1
    cases h1
  refine ⟨ hres, ?_, ?_ ⟩ <;> simp [step, hs, hcancel, hres, SessionState.isTerminal]

/-- Witness for C8 at a concrete past phrase (today at 1am with the clock
at 16:40 of the same day). -/
theorem past_datetime_rejected_witness :
    resolve "today at 1am" 1000 = .err .pastDate ∧
    (step ⟨ "s1", .awaitingDatetime, some "Sarah Johnson", some "headache",
        some "1", none, false, none, 3 ⟩ [] "today at 1am" 1000 false).session.state =
      .awaitingDatetime ∧
    (step ⟨ "s1", .awaitingDatetime, some "Sarah Johnson", some "headache",
        some "1", none, false, none, 3 ⟩ [] "today at 1am" 1000 false).session.requestedTime =
      (⟨ "s1", .awaitingDatetime, some "Sarah Johnson", some "headache",
        some "1", none, false, none, 3 ⟩ : Session).requestedTime :=
  past_datetime_rejected "today at 1am" 1000 60
    ⟨ "s1", .awaitingDatetime, some "Sarah Johnson", some "headache",
      some "1", none, false, none, 3 ⟩ [] false (by decide) (by decide) rfl

end DoctorConnect
